import Mathlib

/-!
Verification of the reverse-replication workflow orchestrator
(`reverserepl/create.go`, `reverserepl/activity/prepare_change_stream.go`,
`reverserepl/activity/prepare_dataflow_reader.go`).

External calls (the Spanner leader-location lookup, the dao client, each
activity's calls to resource managers) are modelled as explicit parameters
so the control flow of the Go code becomes a pure function of those
outcomes.  Go's `nil` map / `nil` slice are modelled as `Option`, a Go
runtime panic as `Option.none` in the result.
-/

namespace ReverseRepl

/-- Source constant `constants.GCS_FILE_PREFIX` (the external-storage URI
scheme); the constants package is outside the excerpt, but line 104 of
`create.go` shows the prefix is "gs://". -/
def GCS_FILE_PREFIX : String := "gs://"

/-- Source constant `constants.MYSQL`; the error message at create.go:69
shows the only supported source type is "mysql". -/
def MYSQL : String := "mysql"

/-- Source constant `constants.RR_READER_FILTER_FWD`.  Its exact text is
outside the excerpt; only its identity and being distinct from the NONE
value matter here. -/
def RR_READER_FILTER_FWD : String := "forward_migration"

/-- Source constant `constants.RR_READER_FILTER_NONE` (see
RR_READER_FILTER_FWD). -/
def RR_READER_FILTER_NONE : String := "none"

/-- Source constant `constants.RR_READER_REGULAR_MODE`; exact text outside
the excerpt, immaterial to the claims. -/
def RR_READER_REGULAR_MODE : String := "regular"

/-- Source constant `constants.REVERSE_REPLICATION_READER_TEMPLATE_PATH`;
exact text outside the excerpt, immaterial to the claims. -/
def REVERSE_REPLICATION_READER_TEMPLATE_PATH : String := "gs://reverse-replication/reader-template"

/-- The `JobData` request record of `reverserepl/create.go`.  Field names
and types follow the Go struct as used in the excerpt; Go zero values are
the field defaults. -/
structure JobData where
  InstanceId : String := ""
  DatabaseId : String := ""
  SessionFilePath : String := ""
  SourceConnectionConfig : String := ""
  SpannerProjectId : String := ""
  JobName : String := ""
  SourceType : String := ""
  MetadataInstance : String := ""
  MetadataDatabase : String := ""
  GcsDataDirectory : String := ""
  ChangeStreamName : String := ""
  FiltrationMode : String := ""
  TimerInterval : Int := 0
  WindowDuration : String := ""
  ShardingCustomJarPath : String := ""
  ShardingCustomClassName : String := ""
  StartTimestamp : String := ""
  EndTimestamp : String := ""
  MetadataTableSuffix : String := ""
  SkipDirectoryName : String := ""
  SourceDbTimezoneOffset : String := ""
  ReaderCfg : String := ""
  WriterCfg : String := ""
  SessionFileGcsPath : String := ""
  SourceConnectionConfigGcsPath : String := ""
  SmtBucketName : String := ""
  IsSMTBucketRequired : Bool := false
  SpannerLocation : String := ""
  deriving Repr, DecidableEq

instance : Inhabited JobData := ⟨{}⟩

/-- create.go:106-107: `strings.Replace(name, "-", "_", -1)` — the pattern
is a single character and the count -1 means "all occurrences", so the
call is exactly a character map replacing every hyphen by an underscore. -/
def sanitizeCsName (s : String) : String :=
  ⟨s.data.map fun c => if c = '-' then '_' else c⟩

/-- Go's strings.HasPrefix: pre is a prefix of s.  Structural (via
List.isPrefixOf), so concrete instances reduce definitionally;
String.startsWith computes the same Bool through a non-structural loop. -/
def goHasPrefix (s pre : String) : Bool := pre.data.isPrefixOf s.data

/-- create.go:33-38: unconditionally mark the staging bucket required and
name it from the run identifier, then mark it unnecessary (empty name)
when both descriptions already live on GCS and an explicit data directory
was supplied. -/
def setBucketDefaults (uuid : String) (request : JobData) : JobData :=
  let r := { request with IsSMTBucketRequired := true, SmtBucketName := "smt-rr-gcs-" ++ uuid }
  if goHasPrefix r.SessionFilePath GCS_FILE_PREFIX
      && goHasPrefix r.SourceConnectionConfig GCS_FILE_PREFIX
      && r.GcsDataDirectory != "" then
    { r with IsSMTBucketRequired := false, SmtBucketName := "" }
  else r

/-- create.go:39-44: the InstanceId and DatabaseId required-field checks. -/
def checkInstanceAndDb (r : JobData) : Except String JobData :=
  if r.InstanceId = "" then
    .error "found empty InstanceId which is a required parameter"
  else if r.DatabaseId = "" then
    .error "found empty DatabaseId which is a required parameter"
  else .ok r

/-- create.go:45-51: SessionFilePath required-field check and the rewrite
of SessionFileGcsPath to a canonical location under the staging bucket
when the session file is not already on GCS. -/
def resolveSessionFilePath (r : JobData) : Except String JobData :=
  if r.SessionFilePath = "" then
    .error "found empty SessionFilePath which is a required parameter"
  else if !(goHasPrefix r.SessionFilePath GCS_FILE_PREFIX) then
    .ok { r with SessionFileGcsPath := GCS_FILE_PREFIX ++ r.SmtBucketName ++ "/session.json" }
  else
    .ok { r with SessionFileGcsPath := r.SessionFilePath }

/-- create.go:52-58: SourceConnectionConfig required-field check and the
analogous rewrite of SourceConnectionConfigGcsPath. -/
def resolveSourceConnectionConfig (r : JobData) : Except String JobData :=
  if r.SourceConnectionConfig = "" then
    .error "found empty SourceConnectionConfig which is a required parameter"
  else if !(goHasPrefix r.SourceConnectionConfig GCS_FILE_PREFIX) then
    .ok { r with SourceConnectionConfigGcsPath := GCS_FILE_PREFIX ++ r.SmtBucketName ++ "/source-connection-config.json" }
  else
    .ok { r with SourceConnectionConfigGcsPath := r.SourceConnectionConfig }

/-- create.go:59-61: the SpannerProjectId required-field check. -/
def checkSpannerProject (r : JobData) : Except String JobData :=
  if r.SpannerProjectId = "" then
    .error "found empty SpannerProjectId which is a required parameter"
  else .ok r

/-- create.go:62-64: default the job name from the run identifier. -/
def defaultJobName (uuid : String) (r : JobData) : JobData :=
  if r.JobName = "" then { r with JobName := "smt-job-" ++ uuid } else r

/-- create.go:65-70: default the source type to mysql, then reject any
other value. -/
def checkSourceType (r : JobData) : Except String JobData :=
  let r := if r.SourceType = "" then { r with SourceType := MYSQL } else r
  if r.SourceType != MYSQL then
    .error (r.SourceType ++ " is not a valid source type for reverse replication. Only supported source type is mysql")
  else .ok r

/-- create.go:71-76: default the metadata instance to the target instance
and the metadata database to a name derived from the run identifier. -/
def defaultMetadata (uuid : String) (r : JobData) : JobData :=
  let r := if r.MetadataInstance = "" then { r with MetadataInstance := r.InstanceId } else r
  if r.MetadataDatabase = "" then { r with MetadataDatabase := "smt-rr-metadata-" ++ uuid } else r

/-- create.go:77-81: default the GCS data directory from the run
identifier; an explicitly supplied directory must already be a gs:// path. -/
def resolveGcsDataDirectory (uuid : String) (r : JobData) : Except String JobData :=
  if r.GcsDataDirectory = "" then
    .ok { r with GcsDataDirectory := "gs://smt-rr-gcs-" ++ uuid ++ "/reverse-replication/data" }
  else if !(goHasPrefix r.GcsDataDirectory GCS_FILE_PREFIX) then
    .error ("invalid gcs path for GcsDataDirectory: " ++ r.GcsDataDirectory)
  else .ok r

/-- create.go:82-84: default the change stream name from the run
identifier. -/
def defaultChangeStreamName (uuid : String) (r : JobData) : JobData :=
  if r.ChangeStreamName = "" then { r with ChangeStreamName := "smt-rr-cs-" ++ uuid } else r

/-- create.go:85-89: default the filtration mode to the forward filter and
reject values outside the two allowed ones. -/
def checkFiltrationMode (r : JobData) : Except String JobData :=
  if r.FiltrationMode = "" then
    .ok { r with FiltrationMode := RR_READER_FILTER_FWD }
  else if !([RR_READER_FILTER_FWD, RR_READER_FILTER_NONE].contains r.FiltrationMode) then
    .error ("found filtrationMode " ++ r.FiltrationMode ++ ", only allowed values are ["
      ++ RR_READER_FILTER_FWD ++ ", " ++ RR_READER_FILTER_NONE ++ "]")
  else .ok r

/-- create.go:90-95: clamp a timer interval below 1 up to 1 and default
the window duration. -/
def clampTimerAndWindow (r : JobData) : JobData :=
  let r := if r.TimerInterval < 1 then { r with TimerInterval := 1 } else r
  if r.WindowDuration = "" then { r with WindowDuration := "10s" } else r

/-- create.go:97-105: the custom-partitioning plugin reference and its
class name come together or not at all, and the reference must be a gs://
path. -/
def checkShardingConfig (r : JobData) : Except String JobData :=
  if r.ShardingCustomJarPath != "" && r.ShardingCustomClassName == "" then
    .error "found non-empty value for ShardingCustomJarPath, but empty value for ShardingCustomClassName"
  else if r.ShardingCustomJarPath == "" && r.ShardingCustomClassName != "" then
    .error "found non-empty value for ShardingCustomClassName, but empty value for ShardingCustomJarPath"
  else if r.ShardingCustomJarPath != "" && !(goHasPrefix r.ShardingCustomJarPath GCS_FILE_PREFIX) then
    .error "please specify a valid GCS path for ShardingCustomJarPath, starting with gs://"
  else .ok r

/-- create.go:106-110: replace hyphens in the change stream name, then
resolve the Spanner leader location (an external call, the `lookup`
parameter) from the project and instance identifiers — fields the
sanitization does not touch.  On lookup failure Go's multi-assignment
leaves the zero value in SpannerLocation and the error is returned. -/
def applyCsSanitizeAndLookup (lookup : String → Except String String)
    (r : JobData) : Except String JobData :=
  match lookup ("projects/" ++ r.SpannerProjectId ++ "/instances/" ++ r.InstanceId) with
  | .ok loc => .ok { r with ChangeStreamName := sanitizeCsName r.ChangeStreamName,
                            SpannerLocation := loc }
  | .error e => .error e

/-- create.go:32-111, `validateAndUpdateJobData`: the request normalizer,
as the sequential composition of the blocks above in source order. -/
def validateAndUpdateJobData (lookup : String → Except String String)
    (request : JobData) (uuid : String) : Except String JobData := do
  let r := setBucketDefaults uuid request
  let r ← checkInstanceAndDb r
  let r ← resolveSessionFilePath r
  let r ← resolveSourceConnectionConfig r
  let r ← checkSpannerProject r
  let r := defaultJobName uuid r
  let r ← checkSourceType r
  let r := defaultMetadata uuid r
  let r ← resolveGcsDataDirectory uuid r
  let r := defaultChangeStreamName uuid r
  let r ← checkFiltrationMode r
  let r := clampTimerAndWindow r
  let r ← checkShardingConfig r
  applyCsSanitizeAndLookup lookup r

/-- One orchestration step, abstracted to its two capabilities
(activity.Activity interface): the outcome of its `Transaction` and of its
`Compensation` once invoked.  The concrete activities' outcomes depend on
external resource managers, so they enter the model as data. -/
structure SagaActivity where
  txn : Except String Unit
  comp : Except String Unit

/-- create.go:232-242, the saga orchestrator loop: invoke each activity's
Transaction in list order; on the first failure stop and return an error
naming the (zero-based) failing index and wrapping the cause.  The result
is (indices whose Transaction was invoked, indices whose Compensation was
invoked, overall outcome).  The compensation list is always empty because
the rollback loop at create.go:234-239 is commented out in the source: no
Compensation is ever called. -/
def runActivities (i : Nat) (acts : List SagaActivity) : List Nat × List Nat × Except String Unit :=
  match acts with
  | [] => ([], [], .ok ())
  | a :: rest =>
    match a.txn with
    | .error e => ([i], [], .error ("error executing activity #" ++ toString i ++ ": " ++ e))
    | .ok _ =>
      let (t, c, res) := runActivities (i + 1) rest
      (i :: t, c, res)

/-- create.go:114-245, `CreateWorkflow`: normalize the request (with a
fresh run identifier), bail out on a validation error, initialize the dao
client (external, parameter `daoInit`), then build the activity catalog
from the normalized request and run the orchestrator loop over it.  The
catalog construction is abstracted as `txns` because each concrete
activity's outcome depends on external services; the list is built only
after normalization succeeds, exactly as in the source. -/
def CreateWorkflow (lookup : String → Except String String) (daoInit : Except String Unit)
    (txns : JobData → List SagaActivity) (request : JobData) (uuid : String) :
    List Nat × List Nat × Except String Unit :=
  match validateAndUpdateJobData lookup request uuid with
  | .error e => ([], [], .error ("error in validateCreateRequest: " ++ e))
  | .ok r =>
    match daoInit with
    | .error e => ([], [], .error ("error starting dao client: " ++ e))
    | .ok _ => runActivities 0 (txns r)

/-- The call `CreateWorkflow(ctx, request)` with Go's by-value parameter
passing, made explicit over a store of JobData variables: the caller's
record lives at index `p`; the call copies it into a fresh cell (the
callee's local `request` variable), and `validateAndUpdateJobData`
(create.go:122) writes through `&request` into that fresh cell only. -/
def CreateWorkflowByValue (lookup : String → Except String String) (daoInit : Except String Unit)
    (txns : JobData → List SagaActivity) (store : List JobData) (p : Nat) (uuid : String) :
    List JobData × (List Nat × List Nat × Except String Unit) :=
  let callee := store.getD p default
  let store1 := store ++ [callee]
  let q := store.length
  let store2 :=
    match validateAndUpdateJobData lookup callee uuid with
    | .ok r => store1.set q r
    | .error _ => store1
  (store2, CreateWorkflow lookup daoInit txns callee uuid)

/-- The external calls PrepareChangeStream.Transaction makes, in the order
the source can make them (prepare_change_stream.go:44, 49, 58). -/
inductive CsAction where
  | check
  | validateOptions
  | create
  deriving Repr, DecidableEq

/-- Outcomes of the three external calls available to
PrepareChangeStream.Transaction: the existence check
(`CheckIfChangeStreamExists`), the options validation
(`ValidateChangeStreamOptions`) and the creation
(`CreateChangeStreamSMTResource`). -/
structure ChangeStreamEnv where
  csExists : Except String Bool
  optionsValid : Except String Unit
  createResult : Except String Unit

/-- The Output record of PrepareChangeStream
(prepare_change_stream.go:30-34). -/
structure PrepareChangeStreamOutput where
  Exists : Bool := false
  ExistsWithIncorrectOptions : Bool := false
  Created : Bool := false
  deriving Repr, DecidableEq

/-- prepare_change_stream.go:42-64, `PrepareChangeStream.Transaction`:
check whether the change stream exists; if it does, validate its options
(wrong options are a hard error, correct options a no-op); only if it does
not exist, create it.  Returns the populated Output, the trace of external
calls made, and the result. -/
def prepareChangeStreamTransaction (env : ChangeStreamEnv) :
    PrepareChangeStreamOutput × List CsAction × Except String Unit :=
  match env.csExists with
  | .error e => ({}, [.check], .error e)
  | .ok true =>
    match env.optionsValid with
    | .error e => ({ ExistsWithIncorrectOptions := true }, [.check, .validateOptions], .error e)
    | .ok _ => ({ Exists := true }, [.check, .validateOptions], .ok ())
  | .ok false =>
    match env.createResult with
    | .error e => ({}, [.check, .create], .error ("could not create changestream resource: " ++ e))
    | .ok _ => ({ Created := true }, [.check, .create], .ok ())

/-- The DataflowTuningConfig record as used by
prepare_dataflow_reader.go:117-146.  The struct is declared outside the
excerpt; fields and types are read off the uses there.  Go's nil map and
nil slice are `none`. -/
structure DataflowTuningConfig where
  ProjectId : String := ""
  JobName : String := ""
  Location : String := ""
  MaxWorkers : Nat := 0
  NumWorkers : Nat := 0
  MachineType : String := ""
  AdditionalUserLabels : Option (List (String × String)) := none
  GcsTemplatePath : String := ""
  AdditionalExperiments : Option (List String) := none
  EnableStreamingEngine : Bool := false
  deriving Repr, DecidableEq

/-- Go's `m[k] = v` on a non-nil map: set the key's binding. -/
def mapInsert (m : List (String × String)) (k v : String) : List (String × String) :=
  if m.any fun kv => kv.1 == k then
    m.map fun kv => if kv.1 == k then (k, v) else kv
  else m ++ [(k, v)]

/-- prepare_dataflow_reader.go:117-146, `validateUpdateReaderTuningCfg`:
fill the unset scalar fields from ambient values (the generated job-name
hash is the `genHash` parameter), write the run-identifying label, default
the template path, add the use_runner_v2 experiment without duplication,
and force the streaming engine on.  The label write at line 136 is Go's
`cfg.AdditionalUserLabels[...] = smtJobId`, which panics when the map is
nil; the panic is modelled as `none`. -/
def validateUpdateReaderTuningCfg (cfg : DataflowTuningConfig)
    (spannerProjectId spannerLocation smtJobId genHash : String) :
    Option DataflowTuningConfig :=
  let cfg := if cfg.ProjectId = "" then { cfg with ProjectId := spannerProjectId } else cfg
  let cfg := if cfg.JobName = "" then
    { cfg with JobName := "smt-reverse-replication-reader-" ++ genHash } else cfg
  let cfg := if cfg.Location = "" then { cfg with Location := spannerLocation } else cfg
  let cfg := if cfg.MaxWorkers = 0 then { cfg with MaxWorkers := 50 } else cfg
  let cfg := if cfg.NumWorkers = 0 then { cfg with NumWorkers := 5 } else cfg
  let cfg := if cfg.MachineType = "" then { cfg with MachineType := "n1-standard-2" } else cfg
  match cfg.AdditionalUserLabels with
  | none => none
  | some m =>
    let cfg := { cfg with
      AdditionalUserLabels := some (mapInsert m "smt-reverse-replication-reader" smtJobId) }
    let cfg := if cfg.GcsTemplatePath = "" then
      { cfg with GcsTemplatePath := REVERSE_REPLICATION_READER_TEMPLATE_PATH } else cfg
    let cfg :=
      match cfg.AdditionalExperiments with
      | none => { cfg with AdditionalExperiments := some ["use_runner_v2"] }
      | some exps =>
        if exps.contains "use_runner_v2" then cfg
        else { cfg with AdditionalExperiments := some (exps ++ ["use_runner_v2"]) }
    some { cfg with EnableStreamingEngine := true }

/-- The Input record of PrepareDataflowReader
(prepare_dataflow_reader.go:30-51). -/
structure PrepareDataflowReaderInput where
  SmtJobId : String := ""
  ChangeStreamName : String := ""
  InstanceId : String := ""
  DatabaseId : String := ""
  SpannerProjectId : String := ""
  SessionFilePath : String := ""
  SourceShardsFilePath : String := ""
  MetadataInstance : String := ""
  MetadataDatabase : String := ""
  GcsOutputDirectory : String := ""
  StartTimestamp : String := ""
  EndTimestamp : String := ""
  WindowDuration : String := ""
  FiltrationMode : String := ""
  MetadataTableSuffix : String := ""
  SkipDirectoryName : String := ""
  ShardingCustomJarPath : String := ""
  ShardingCustomClassName : String := ""
  TuningCfg : String := ""
  SpannerLocation : String := ""
  deriving Repr, DecidableEq

/-- prepare_dataflow_reader.go:75-98: the launch parameter map handed to
the pipeline launcher, as an association list in source order.  The two
custom-partitioning keys are appended only when the plugin jar path is
non-empty (the template expects GCS file paths, so empty strings must not
be sent). -/
def readerLaunchParams (input : PrepareDataflowReaderInput) : List (String × String) :=
  let params := [
    ("changeStreamName", input.ChangeStreamName),
    ("instanceId", input.InstanceId),
    ("databaseId", input.DatabaseId),
    ("spannerProjectId", input.SpannerProjectId),
    ("metadataInstance", input.MetadataInstance),
    ("metadataDatabase", input.MetadataDatabase),
    ("gcsOutputDirectory", input.GcsOutputDirectory),
    ("sessionFilePath", input.SessionFilePath),
    ("sourceShardsFilePath", input.SourceShardsFilePath),
    ("endTimestamp", input.EndTimestamp),
    ("windowDuration", input.WindowDuration),
    ("filtrationMode", input.FiltrationMode),
    ("metadataTableSuffix", input.MetadataTableSuffix),
    ("skipDirectoryName", input.SkipDirectoryName),
    ("startTimestamp", input.StartTimestamp),
    ("runIdentifier", input.SmtJobId),
    ("runMode", RR_READER_REGULAR_MODE)]
  if input.ShardingCustomJarPath != "" then
    params ++ [
      ("shardingCustomJarPath", input.ShardingCustomJarPath),
      ("shardingCustomClassName", input.ShardingCustomClassName)]
  else params

/-- The 17 keys readerLaunchParams always includes, in source order. -/
def readerFixedParamKeys : List String :=
  ["changeStreamName", "instanceId", "databaseId", "spannerProjectId",
   "metadataInstance", "metadataDatabase", "gcsOutputDirectory", "sessionFilePath",
   "sourceShardsFilePath", "endTimestamp", "windowDuration", "filtrationMode",
   "metadataTableSuffix", "skipDirectoryName", "startTimestamp", "runIdentifier", "runMode"]

/-- The condition of create.go:35 on the incoming request: both
descriptions already externally hosted and an explicit staging data
directory supplied. -/
def gcsStagingUnnecessary (request : JobData) : Bool :=
  goHasPrefix request.SessionFilePath GCS_FILE_PREFIX
    && goHasPrefix request.SourceConnectionConfig GCS_FILE_PREFIX
    && request.GcsDataDirectory != ""

/-- A Spanner leader-location lookup that always succeeds, for concrete
runs of the normalizer. -/
def cLookup : String → Except String String := fun _ => .ok "us-central1"

/-- A request whose descriptions are already on GCS, with an explicit data
directory and an unset MetadataInstance. -/
def demoRequestC4 : JobData :=
  { InstanceId := "inst", DatabaseId := "db", SessionFilePath := "gs://b/sess.json",
    SourceConnectionConfig := "gs://b/src.json", SpannerProjectId := "proj",
    GcsDataDirectory := "gs://data-dir" }

/-- The normalizer's output on demoRequestC4 with run identifier "u1". -/
def normalizedC4 : JobData :=
  (validateAndUpdateJobData cLookup demoRequestC4 "u1").toOption.getD default

/-- A valid request leaving every defaultable field unset. -/
def demoRequestW : JobData :=
  { InstanceId := "inst", DatabaseId := "db", SessionFilePath := "sess.json",
    SourceConnectionConfig := "conn.json", SpannerProjectId := "proj" }

/-- The normalizer's output on demoRequestW with run identifier "u1". -/
def normalizedW : JobData :=
  (validateAndUpdateJobData cLookup demoRequestW "u1").toOption.getD default

/-- An otherwise-valid request whose explicit staging data directory is
not a gs:// path. -/
def demoRequestBadDir : JobData :=
  { InstanceId := "inst", DatabaseId := "db", SessionFilePath := "sess.json",
    SourceConnectionConfig := "conn.json", SpannerProjectId := "proj",
    GcsDataDirectory := "local/dir" }

/-- Seven activities whose fourth Transaction fails. -/
def demoActs7 : List SagaActivity :=
  [⟨.ok (), .ok ()⟩, ⟨.ok (), .ok ()⟩, ⟨.ok (), .ok ()⟩,
   ⟨.error "boom", .ok ()⟩, ⟨.ok (), .ok ()⟩, ⟨.ok (), .ok ()⟩, ⟨.ok (), .ok ()⟩]

/-- Two activities: the first completes, the second's Transaction fails
while its own and its predecessor's Compensation would succeed. -/
def demoActs2 : List SagaActivity :=
  [⟨.ok (), .ok ()⟩, ⟨.error "boom", .ok ()⟩]

/-- A change-stream environment where the feed exists with wrong options. -/
def demoCsEnv : ChangeStreamEnv :=
  { csExists := .ok true, optionsValid := .error "wrong options", createResult := .ok () }

/-- A request with every field unset (Go zero value). -/
def demoRequestMissing : JobData := {}

end ReverseRepl

namespace ReverseRepl

theorem exceptBind_ok {ε α β : Type} {e : Except ε α} {f : α → Except ε β} {b : β} :
    (e >>= f) = .ok b ↔ ∃ a, e = .ok a ∧ f a = .ok b := by
  cases e <;> simp [Bind.bind, Except.bind]

theorem exceptBind_err {ε α β : Type} (e : ε) (f : α → Except ε β) :
    ((Except.error e : Except ε α) >>= f) = .error e := rfl

theorem exceptBind_pure {ε α β : Type} (a : α) (f : α → Except ε β) :
    ((Except.ok a : Except ε α) >>= f) = f a := rfl

theorem setBucketDefaults_eq (uuid : String) (r : JobData) :
    setBucketDefaults uuid r =
      { r with IsSMTBucketRequired := !(gcsStagingUnnecessary r),
               SmtBucketName := if gcsStagingUnnecessary r then "" else "smt-rr-gcs-" ++ uuid } := by
  unfold setBucketDefaults gcsStagingUnnecessary
  by_cases h : (goHasPrefix r.SessionFilePath GCS_FILE_PREFIX
      && goHasPrefix r.SourceConnectionConfig GCS_FILE_PREFIX
      && r.GcsDataDirectory != "") = true
  · simp only [h, if_true, Bool.not_true, if_pos]
  · simp only [Bool.not_eq_true] at h
    simp only [h, Bool.not_false, if_false, Bool.false_eq_true]

theorem checkInstanceAndDb_ok {r d : JobData} (h : checkInstanceAndDb r = .ok d) :
    d = r ∧ r.InstanceId ≠ "" ∧ r.DatabaseId ≠ "" := by
  unfold checkInstanceAndDb at h
  split at h <;> rename_i h1
  · exact Except.noConfusion h
  · split at h <;> rename_i h2
    · exact Except.noConfusion h
    · exact ⟨(Except.ok.inj h).symm, h1, h2⟩

theorem checkInstanceAndDb_of_ne {r : JobData} (h1 : r.InstanceId ≠ "") (h2 : r.DatabaseId ≠ "") :
    checkInstanceAndDb r = .ok r := by
  unfold checkInstanceAndDb
  rw [if_neg h1, if_neg h2]

theorem checkInstanceAndDb_err1 {r : JobData} (h : r.InstanceId = "") :
    checkInstanceAndDb r = .error "found empty InstanceId which is a required parameter" := by
  unfold checkInstanceAndDb
  rw [if_pos h]

theorem checkInstanceAndDb_err2 {r : JobData} (h1 : r.InstanceId ≠ "") (h2 : r.DatabaseId = "") :
    checkInstanceAndDb r = .error "found empty DatabaseId which is a required parameter" := by
  unfold checkInstanceAndDb
  rw [if_neg h1, if_pos h2]

theorem resolveSessionFilePath_ok {r d : JobData} (h : resolveSessionFilePath r = .ok d) :
    r.SessionFilePath ≠ "" ∧ ∃ v, d = { r with SessionFileGcsPath := v } := by
  unfold resolveSessionFilePath at h
  split at h <;> rename_i h1
  · exact Except.noConfusion h
  · refine ⟨h1, ?_⟩
    split at h <;> rename_i h2
    · exact ⟨_, (Except.ok.inj h).symm⟩
    · exact ⟨_, (Except.ok.inj h).symm⟩

theorem resolveSessionFilePath_of_ne {r : JobData} (h : r.SessionFilePath ≠ "") :
    resolveSessionFilePath r =
      .ok { r with SessionFileGcsPath :=
        if goHasPrefix r.SessionFilePath GCS_FILE_PREFIX then r.SessionFilePath
        else GCS_FILE_PREFIX ++ r.SmtBucketName ++ "/session.json" } := by
  unfold resolveSessionFilePath
  rw [if_neg h]
  by_cases hb : goHasPrefix r.SessionFilePath GCS_FILE_PREFIX <;> simp [hb]

theorem resolveSessionFilePath_err {r : JobData} (h : r.SessionFilePath = "") :
    resolveSessionFilePath r = .error "found empty SessionFilePath which is a required parameter" := by
  unfold resolveSessionFilePath
  rw [if_pos h]

theorem resolveSourceConnectionConfig_ok {r d : JobData}
    (h : resolveSourceConnectionConfig r = .ok d) :
    r.SourceConnectionConfig ≠ "" ∧ ∃ v, d = { r with SourceConnectionConfigGcsPath := v } := by
  unfold resolveSourceConnectionConfig at h
  split at h <;> rename_i h1
  · exact Except.noConfusion h
  · refine ⟨h1, ?_⟩
    split at h <;> rename_i h2
    · exact ⟨_, (Except.ok.inj h).symm⟩
    · exact ⟨_, (Except.ok.inj h).symm⟩

theorem resolveSourceConnectionConfig_of_ne {r : JobData} (h : r.SourceConnectionConfig ≠ "") :
    resolveSourceConnectionConfig r =
      .ok { r with SourceConnectionConfigGcsPath :=
        if goHasPrefix r.SourceConnectionConfig GCS_FILE_PREFIX then r.SourceConnectionConfig
        else GCS_FILE_PREFIX ++ r.SmtBucketName ++ "/source-connection-config.json" } := by
  unfold resolveSourceConnectionConfig
  rw [if_neg h]
  by_cases hb : goHasPrefix r.SourceConnectionConfig GCS_FILE_PREFIX <;> simp [hb]

theorem resolveSourceConnectionConfig_err {r : JobData} (h : r.SourceConnectionConfig = "") :
    resolveSourceConnectionConfig r =
      .error "found empty SourceConnectionConfig which is a required parameter" := by
  unfold resolveSourceConnectionConfig
  rw [if_pos h]

theorem checkSpannerProject_ok {r d : JobData} (h : checkSpannerProject r = .ok d) :
    d = r ∧ r.SpannerProjectId ≠ "" := by
  unfold checkSpannerProject at h
  split at h <;> rename_i h1
  · exact Except.noConfusion h
  · exact ⟨(Except.ok.inj h).symm, h1⟩

theorem checkSpannerProject_of_ne {r : JobData} (h : r.SpannerProjectId ≠ "") :
    checkSpannerProject r = .ok r := by
  unfold checkSpannerProject
  rw [if_neg h]

theorem checkSpannerProject_err {r : JobData} (h : r.SpannerProjectId = "") :
    checkSpannerProject r = .error "found empty SpannerProjectId which is a required parameter" := by
  unfold checkSpannerProject
  rw [if_pos h]

theorem defaultJobName_eq (uuid : String) (r : JobData) :
    defaultJobName uuid r =
      { r with JobName := if r.JobName = "" then "smt-job-" ++ uuid else r.JobName } := by
  unfold defaultJobName
  by_cases h : r.JobName = "" <;> simp [h]

theorem checkSourceType_ok {r d : JobData} (h : checkSourceType r = .ok d) :
    ∃ st, d = { r with SourceType := st } := by
  unfold checkSourceType at h
  split at h <;> rename_i h1
  · simp only [bne_self_eq_false, Bool.false_eq_true, if_false] at h
    exact ⟨MYSQL, (Except.ok.inj h).symm⟩
  · by_cases hm : r.SourceType = MYSQL
    · simp only [hm, bne_self_eq_false, Bool.false_eq_true, if_false] at h
      exact ⟨MYSQL, by rw [← hm]; exact (Except.ok.inj h).symm⟩
    · have hb : (r.SourceType != MYSQL) = true := by simp [hm]
      simp only [hb, if_true] at h
      exact Except.noConfusion h

theorem checkSourceType_of (r : JobData) (h : r.SourceType = "" ∨ r.SourceType = MYSQL) :
    checkSourceType r = .ok { r with SourceType := MYSQL } := by
  unfold checkSourceType
  rcases h with h | h
  · rw [if_pos h]
    simp
  · have hne : r.SourceType ≠ "" := by
      rw [h]
      decide
    rw [if_neg hne, ← h]
    simp

theorem defaultMetadata_eq (uuid : String) (r : JobData) :
    defaultMetadata uuid r =
      { r with MetadataInstance := if r.MetadataInstance = "" then r.InstanceId else r.MetadataInstance,
               MetadataDatabase := if r.MetadataDatabase = "" then "smt-rr-metadata-" ++ uuid
                 else r.MetadataDatabase } := by
  unfold defaultMetadata
  by_cases h1 : r.MetadataInstance = "" <;> by_cases h2 : r.MetadataDatabase = "" <;> simp [h1, h2]

theorem resolveGcsDataDirectory_ok {uuid : String} {r d : JobData}
    (h : resolveGcsDataDirectory uuid r = .ok d) :
    d = { r with GcsDataDirectory :=
      if r.GcsDataDirectory = "" then "gs://smt-rr-gcs-" ++ uuid ++ "/reverse-replication/data"
      else r.GcsDataDirectory } := by
  unfold resolveGcsDataDirectory at h
  split at h <;> rename_i h1
  · rw [if_pos h1]
    exact (Except.ok.inj h).symm
  · rw [if_neg h1]
    split at h <;> rename_i h2
    · exact Except.noConfusion h
    · exact (Except.ok.inj h).symm

theorem resolveGcsDataDirectory_err {uuid : String} {r : JobData} (h1 : r.GcsDataDirectory ≠ "")
    (h2 : goHasPrefix r.GcsDataDirectory GCS_FILE_PREFIX = false) :
    resolveGcsDataDirectory uuid r
      = .error ("invalid gcs path for GcsDataDirectory: " ++ r.GcsDataDirectory) := by
  unfold resolveGcsDataDirectory
  rw [if_neg h1, if_pos (by simp [h2])]

theorem defaultChangeStreamName_eq (uuid : String) (r : JobData) :
    defaultChangeStreamName uuid r =
      { r with ChangeStreamName := if r.ChangeStreamName = "" then "smt-rr-cs-" ++ uuid
          else r.ChangeStreamName } := by
  unfold defaultChangeStreamName
  by_cases h : r.ChangeStreamName = "" <;> simp [h]

theorem checkFiltrationMode_ok {r d : JobData} (h : checkFiltrationMode r = .ok d) :
    ∃ fm, d = { r with FiltrationMode := fm } := by
  unfold checkFiltrationMode at h
  split at h <;> rename_i h1
  · exact ⟨_, (Except.ok.inj h).symm⟩
  · split at h <;> rename_i h2
    · exact Except.noConfusion h
    · exact ⟨r.FiltrationMode, (Except.ok.inj h).symm⟩

theorem clampTimerAndWindow_eq (r : JobData) :
    clampTimerAndWindow r =
      { r with TimerInterval := if r.TimerInterval < 1 then 1 else r.TimerInterval,
               WindowDuration := if r.WindowDuration = "" then "10s" else r.WindowDuration } := by
  unfold clampTimerAndWindow
  by_cases h1 : r.TimerInterval < 1 <;> by_cases h2 : r.WindowDuration = "" <;> simp [h1, h2]

theorem checkShardingConfig_ok {r d : JobData} (h : checkShardingConfig r = .ok d) : d = r := by
  unfold checkShardingConfig at h
  split at h <;> rename_i h1
  · exact Except.noConfusion h
  · split at h <;> rename_i h2
    · exact Except.noConfusion h
    · split at h <;> rename_i h3
      · exact Except.noConfusion h
      · exact (Except.ok.inj h).symm

theorem checkShardingConfig_of (r : JobData) (h1 : r.ShardingCustomJarPath = "")
    (h2 : r.ShardingCustomClassName = "") : checkShardingConfig r = .ok r := by
  unfold checkShardingConfig
  simp [h1, h2]

theorem applyCsSanitizeAndLookup_ok {lookup : String → Except String String} {r d : JobData}
    (h : applyCsSanitizeAndLookup lookup r = .ok d) :
    ∃ loc, d = { r with ChangeStreamName := sanitizeCsName r.ChangeStreamName,
                        SpannerLocation := loc } := by
  unfold applyCsSanitizeAndLookup at h
  split at h <;> rename_i hlk
  · exact ⟨_, (Except.ok.inj h).symm⟩
  · exact Except.noConfusion h

set_option maxHeartbeats 1600000 in
theorem validate_ok_fields {lookup : String → Except String String} {request d : JobData}
    {uuid : String} (h : validateAndUpdateJobData lookup request uuid = .ok d) :
    d.IsSMTBucketRequired = !(gcsStagingUnnecessary request)
    ∧ d.SmtBucketName = (if gcsStagingUnnecessary request then "" else "smt-rr-gcs-" ++ uuid)
    ∧ d.JobName = (if request.JobName = "" then "smt-job-" ++ uuid else request.JobName)
    ∧ d.MetadataInstance
        = (if request.MetadataInstance = "" then request.InstanceId else request.MetadataInstance)
    ∧ d.MetadataDatabase
        = (if request.MetadataDatabase = "" then "smt-rr-metadata-" ++ uuid
            else request.MetadataDatabase)
    ∧ d.GcsDataDirectory
        = (if request.GcsDataDirectory = ""
            then "gs://smt-rr-gcs-" ++ uuid ++ "/reverse-replication/data"
            else request.GcsDataDirectory)
    ∧ d.ChangeStreamName
        = sanitizeCsName (if request.ChangeStreamName = "" then "smt-rr-cs-" ++ uuid
            else request.ChangeStreamName) := by
  unfold validateAndUpdateJobData at h
  obtain ⟨r1, h1, hb1⟩ := exceptBind_ok.mp h
  clear h
  obtain ⟨r2, h2, hb2⟩ := exceptBind_ok.mp hb1
  clear hb1
  obtain ⟨r3, h3, hb3⟩ := exceptBind_ok.mp hb2
  clear hb2
  obtain ⟨r4, h4, hb4⟩ := exceptBind_ok.mp hb3
  clear hb3
  obtain ⟨r5, h5, hb5⟩ := exceptBind_ok.mp hb4
  clear hb4
  obtain ⟨r6, h6, hb6⟩ := exceptBind_ok.mp hb5
  clear hb5
  obtain ⟨r7, h7, hb7⟩ := exceptBind_ok.mp hb6
  clear hb6
  obtain ⟨r8, h8, h⟩ := exceptBind_ok.mp hb7
  clear hb7
  obtain ⟨hr1, hI, hD⟩ := checkInstanceAndDb_ok h1
  obtain ⟨hS, v2, hr2⟩ := resolveSessionFilePath_ok h2
  obtain ⟨hC, v3, hr3⟩ := resolveSourceConnectionConfig_ok h3
  obtain ⟨hr4, hP⟩ := checkSpannerProject_ok h4
  obtain ⟨st, hr5⟩ := checkSourceType_ok h5
  have hr6 := resolveGcsDataDirectory_ok h6
  obtain ⟨fm, hr7⟩ := checkFiltrationMode_ok h7
  have hr8 := checkShardingConfig_ok h8
  obtain ⟨loc, hd⟩ := applyCsSanitizeAndLookup_ok h
  have t1 : r1.IsSMTBucketRequired = !(gcsStagingUnnecessary request)
      ∧ r1.SmtBucketName = (if gcsStagingUnnecessary request then "" else "smt-rr-gcs-" ++ uuid)
      ∧ r1.JobName = request.JobName ∧ r1.MetadataInstance = request.MetadataInstance
      ∧ r1.MetadataDatabase = request.MetadataDatabase
      ∧ r1.GcsDataDirectory = request.GcsDataDirectory
      ∧ r1.ChangeStreamName = request.ChangeStreamName
      ∧ r1.InstanceId = request.InstanceId := by
    refine ⟨?_, ?_, ?_, ?_, ?_, ?_, ?_, ?_⟩ <;> simp only [hr1, setBucketDefaults_eq]
  have t2 : r2.IsSMTBucketRequired = r1.IsSMTBucketRequired
      ∧ r2.SmtBucketName = r1.SmtBucketName
      ∧ r2.JobName = r1.JobName ∧ r2.MetadataInstance = r1.MetadataInstance
      ∧ r2.MetadataDatabase = r1.MetadataDatabase ∧ r2.GcsDataDirectory = r1.GcsDataDirectory
      ∧ r2.ChangeStreamName = r1.ChangeStreamName ∧ r2.InstanceId = r1.InstanceId := by
    refine ⟨?_, ?_, ?_, ?_, ?_, ?_, ?_, ?_⟩ <;> simp only [hr2]
  have t3 : r3.IsSMTBucketRequired = r2.IsSMTBucketRequired
      ∧ r3.SmtBucketName = r2.SmtBucketName
      ∧ r3.JobName = r2.JobName ∧ r3.MetadataInstance = r2.MetadataInstance
      ∧ r3.MetadataDatabase = r2.MetadataDatabase ∧ r3.GcsDataDirectory = r2.GcsDataDirectory
      ∧ r3.ChangeStreamName = r2.ChangeStreamName ∧ r3.InstanceId = r2.InstanceId := by
    refine ⟨?_, ?_, ?_, ?_, ?_, ?_, ?_, ?_⟩ <;> simp only [hr3]
  have t4 : r4.IsSMTBucketRequired = r3.IsSMTBucketRequired
      ∧ r4.SmtBucketName = r3.SmtBucketName
      ∧ r4.JobName = r3.JobName ∧ r4.MetadataInstance = r3.MetadataInstance
      ∧ r4.MetadataDatabase = r3.MetadataDatabase ∧ r4.GcsDataDirectory = r3.GcsDataDirectory
      ∧ r4.ChangeStreamName = r3.ChangeStreamName ∧ r4.InstanceId = r3.InstanceId := by
    refine ⟨?_, ?_, ?_, ?_, ?_, ?_, ?_, ?_⟩ <;> simp only [hr4]
  have t5 : r5.IsSMTBucketRequired = r4.IsSMTBucketRequired
      ∧ r5.SmtBucketName = r4.SmtBucketName
      ∧ r5.JobName = (if r4.JobName = "" then "smt-job-" ++ uuid else r4.JobName)
      ∧ r5.MetadataInstance = r4.MetadataInstance
      ∧ r5.MetadataDatabase = r4.MetadataDatabase ∧ r5.GcsDataDirectory = r4.GcsDataDirectory
      ∧ r5.ChangeStreamName = r4.ChangeStreamName ∧ r5.InstanceId = r4.InstanceId := by
    refine ⟨?_, ?_, ?_, ?_, ?_, ?_, ?_, ?_⟩ <;> simp only [hr5, defaultJobName_eq]
  have t6 : r6.IsSMTBucketRequired = r5.IsSMTBucketRequired
      ∧ r6.SmtBucketName = r5.SmtBucketName
      ∧ r6.JobName = r5.JobName
      ∧ r6.MetadataInstance = (if r5.MetadataInstance = "" then r5.InstanceId
          else r5.MetadataInstance)
      ∧ r6.MetadataDatabase = (if r5.MetadataDatabase = "" then "smt-rr-metadata-" ++ uuid
          else r5.MetadataDatabase)
      ∧ r6.GcsDataDirectory = (if r5.GcsDataDirectory = ""
          then "gs://smt-rr-gcs-" ++ uuid ++ "/reverse-replication/data"
          else r5.GcsDataDirectory)
      ∧ r6.ChangeStreamName = r5.ChangeStreamName ∧ r6.InstanceId = r5.InstanceId := by
    refine ⟨?_, ?_, ?_, ?_, ?_, ?_, ?_, ?_⟩ <;> simp only [hr6, defaultMetadata_eq]
  have t7 : r7.IsSMTBucketRequired = r6.IsSMTBucketRequired
      ∧ r7.SmtBucketName = r6.SmtBucketName
      ∧ r7.JobName = r6.JobName ∧ r7.MetadataInstance = r6.MetadataInstance
      ∧ r7.MetadataDatabase = r6.MetadataDatabase ∧ r7.GcsDataDirectory = r6.GcsDataDirectory
      ∧ r7.ChangeStreamName = (if r6.ChangeStreamName = "" then "smt-rr-cs-" ++ uuid
          else r6.ChangeStreamName)
      ∧ r7.InstanceId = r6.InstanceId := by
    refine ⟨?_, ?_, ?_, ?_, ?_, ?_, ?_, ?_⟩ <;> simp only [hr7, defaultChangeStreamName_eq]
  have t8 : r8.IsSMTBucketRequired = r7.IsSMTBucketRequired
      ∧ r8.SmtBucketName = r7.SmtBucketName
      ∧ r8.JobName = r7.JobName ∧ r8.MetadataInstance = r7.MetadataInstance
      ∧ r8.MetadataDatabase = r7.MetadataDatabase ∧ r8.GcsDataDirectory = r7.GcsDataDirectory
      ∧ r8.ChangeStreamName = r7.ChangeStreamName ∧ r8.InstanceId = r7.InstanceId := by
    refine ⟨?_, ?_, ?_, ?_, ?_, ?_, ?_, ?_⟩ <;> simp only [hr8, clampTimerAndWindow_eq]
  have td : d.IsSMTBucketRequired = r8.IsSMTBucketRequired
      ∧ d.SmtBucketName = r8.SmtBucketName
      ∧ d.JobName = r8.JobName ∧ d.MetadataInstance = r8.MetadataInstance
      ∧ d.MetadataDatabase = r8.MetadataDatabase ∧ d.GcsDataDirectory = r8.GcsDataDirectory
      ∧ d.ChangeStreamName = sanitizeCsName r8.ChangeStreamName := by
    refine ⟨?_, ?_, ?_, ?_, ?_, ?_, ?_⟩ <;> simp only [hd]
  refine ⟨?_, ?_, ?_, ?_, ?_, ?_, ?_⟩ <;>
    simp only [td, t8, t7, t6, t5, t4, t3, t2, t1]

theorem CreateWorkflow_error_of_validate {lookup : String → Except String String}
    {daoInit : Except String Unit} {txns : JobData → List SagaActivity} {request : JobData}
    {uuid : String} {e : String} (h : validateAndUpdateJobData lookup request uuid = .error e) :
    CreateWorkflow lookup daoInit txns request uuid
      = ([], [], .error ("error in validateCreateRequest: " ++ e)) := by
  unfold CreateWorkflow
  rw [h]

theorem bindIte {ε α β : Type} {c : Prop} [Decidable c] (a b : Except ε α)
    (f : α → Except ε β) :
    ((if c then a else b) >>= f) = if c then (a >>= f) else (b >>= f) := by
  split <;> rfl

theorem MYSQL_ne_empty : ¬(MYSQL = "") := by decide

/-- C5: the normalizer marks staging unnecessary and empties the
staging-bucket name exactly when both descriptions are already gs:// paths
and an explicit staging data directory is supplied; otherwise it marks
staging required and synthesizes the bucket name smt-rr-gcs-<run-id>
(create.go:33-38). -/
theorem validate_staging_bucket_policy :
    ∀ (lookup : String → Except String String) (request : JobData) (uuid : String) (d : JobData),
      validateAndUpdateJobData lookup request uuid = .ok d →
      ((d.IsSMTBucketRequired = false ∧ d.SmtBucketName = "")
        ↔ gcsStagingUnnecessary request = true)
      ∧ (gcsStagingUnnecessary request = false →
          d.IsSMTBucketRequired = true ∧ d.SmtBucketName = "smt-rr-gcs-" ++ uuid) := by
  intro lookup request uuid d h
  obtain ⟨hb, hn, -⟩ := validate_ok_fields h
  cases hcond : gcsStagingUnnecessary request <;> rw [hcond] at hb hn <;> simp at hb hn
  · refine ⟨⟨?_, ?_⟩, ?_⟩
    · rintro ⟨hf, -⟩
      rw [hb] at hf
      exact absurd hf (by decide)
    · intro hft
      exact absurd hft (by decide)
    · intro _
      exact ⟨hb, hn⟩
  · refine ⟨⟨?_, ?_⟩, ?_⟩
    · intro _
      rfl
    · intro _
      exact ⟨hb, hn⟩
    · intro hft
      exact absurd hft (by decide)

/-- C5 witness: on a concrete request whose descriptions are both gs://
paths and whose data directory is explicit, the normalizer reports staging
unnecessary with an empty bucket name. -/
theorem validate_staging_bucket_policy_witness :
    gcsStagingUnnecessary demoRequestC4 = true
    ∧ normalizedC4.IsSMTBucketRequired = false ∧ normalizedC4.SmtBucketName = "" := by
  have h := validate_staging_bucket_policy cLookup demoRequestC4 "u1" normalizedC4 rfl
  obtain ⟨hiff, -⟩ := h
  obtain ⟨h1, h2⟩ := hiff.mpr rfl
  exact ⟨rfl, h1, h2⟩

/-- C3: a request missing any of the five required fields fails validation
with an error naming the first missing field in check order, and
CreateWorkflow then returns that error without invoking any activity
Transaction (create.go:39-61, 122-125, 232-242). -/
theorem createWorkflow_missing_required_field :
    ∀ (lookup : String → Except String String) (daoInit : Except String Unit)
      (txns : JobData → List SagaActivity) (request : JobData) (uuid : String),
      (request.InstanceId = "" ∨ request.DatabaseId = "" ∨ request.SessionFilePath = ""
        ∨ request.SourceConnectionConfig = "" ∨ request.SpannerProjectId = "") →
      ∃ f, ((f = "InstanceId" ∧ request.InstanceId = "")
          ∨ (f = "DatabaseId" ∧ request.DatabaseId = "")
          ∨ (f = "SessionFilePath" ∧ request.SessionFilePath = "")
          ∨ (f = "SourceConnectionConfig" ∧ request.SourceConnectionConfig = "")
          ∨ (f = "SpannerProjectId" ∧ request.SpannerProjectId = ""))
        ∧ validateAndUpdateJobData lookup request uuid
            = .error ("found empty " ++ f ++ " which is a required parameter")
        ∧ CreateWorkflow lookup daoInit txns request uuid
            = ([], [], .error ("error in validateCreateRequest: found empty " ++ f
                ++ " which is a required parameter")) := by
  intro lookup daoInit txns request uuid hor
  by_cases hI : request.InstanceId = ""
  · have hv : validateAndUpdateJobData lookup request uuid
        = .error "found empty InstanceId which is a required parameter" := by
      unfold validateAndUpdateJobData
      rw [setBucketDefaults_eq]
      simp [checkInstanceAndDb, hI, exceptBind_err]
    exact ⟨"InstanceId", Or.inl ⟨rfl, hI⟩, hv, CreateWorkflow_error_of_validate hv⟩
  · by_cases hD : request.DatabaseId = ""
    · have hv : validateAndUpdateJobData lookup request uuid
          = .error "found empty DatabaseId which is a required parameter" := by
        unfold validateAndUpdateJobData
        rw [setBucketDefaults_eq]
        simp [checkInstanceAndDb, hI, hD, exceptBind_err]
      exact ⟨"DatabaseId", Or.inr (Or.inl ⟨rfl, hD⟩), hv, CreateWorkflow_error_of_validate hv⟩
    · by_cases hS : request.SessionFilePath = ""
      · have hv : validateAndUpdateJobData lookup request uuid
            = .error "found empty SessionFilePath which is a required parameter" := by
          unfold validateAndUpdateJobData
          rw [setBucketDefaults_eq]
          simp [checkInstanceAndDb, resolveSessionFilePath, hI, hD, hS,
            exceptBind_err, exceptBind_pure]
        exact ⟨"SessionFilePath", Or.inr (Or.inr (Or.inl ⟨rfl, hS⟩)), hv,
          CreateWorkflow_error_of_validate hv⟩
      · by_cases hC : request.SourceConnectionConfig = ""
        · have hv : validateAndUpdateJobData lookup request uuid
              = .error "found empty SourceConnectionConfig which is a required parameter" := by
            unfold validateAndUpdateJobData
            rw [setBucketDefaults_eq]
            simp [checkInstanceAndDb, resolveSessionFilePath, resolveSourceConnectionConfig,
              hI, hD, hS, hC, bindIte, exceptBind_err, exceptBind_pure]
          exact ⟨"SourceConnectionConfig", Or.inr (Or.inr (Or.inr (Or.inl ⟨rfl, hC⟩))), hv,
            CreateWorkflow_error_of_validate hv⟩
        · by_cases hP : request.SpannerProjectId = ""
          · have hv : validateAndUpdateJobData lookup request uuid
                = .error "found empty SpannerProjectId which is a required parameter" := by
              unfold validateAndUpdateJobData
              rw [setBucketDefaults_eq]
              simp [checkInstanceAndDb, resolveSessionFilePath, resolveSourceConnectionConfig,
                checkSpannerProject, hI, hD, hS, hC, hP, bindIte,
                exceptBind_err, exceptBind_pure]
            exact ⟨"SpannerProjectId", Or.inr (Or.inr (Or.inr (Or.inr ⟨rfl, hP⟩))), hv,
              CreateWorkflow_error_of_validate hv⟩
          · rcases hor with h | h | h | h | h <;> contradiction

/-- C3 witness: the all-empty request fails validation naming InstanceId,
and CreateWorkflow runs no activity. -/
theorem createWorkflow_missing_required_field_witness :
    ∃ f, ((f = "InstanceId" ∧ demoRequestMissing.InstanceId = "")
        ∨ (f = "DatabaseId" ∧ demoRequestMissing.DatabaseId = "")
        ∨ (f = "SessionFilePath" ∧ demoRequestMissing.SessionFilePath = "")
        ∨ (f = "SourceConnectionConfig" ∧ demoRequestMissing.SourceConnectionConfig = "")
        ∨ (f = "SpannerProjectId" ∧ demoRequestMissing.SpannerProjectId = ""))
      ∧ validateAndUpdateJobData cLookup demoRequestMissing "u1"
          = .error ("found empty " ++ f ++ " which is a required parameter")
      ∧ CreateWorkflow cLookup (.ok ()) (fun _ => []) demoRequestMissing "u1"
          = ([], [], .error ("error in validateCreateRequest: found empty " ++ f
              ++ " which is a required parameter")) :=
  createWorkflow_missing_required_field cLookup (.ok ()) (fun _ => []) demoRequestMissing "u1"
    (Or.inl rfl)

/-- C4 counterexample: in an otherwise-valid request with MetadataInstance
unset, normalization defaults MetadataInstance to the InstanceId ("inst"),
which is not of the form <prefix>-<run-id> for run identifier "u1"
(create.go:71-73 copies InstanceId instead of synthesizing a name from the
run identifier). -/
theorem validate_metadata_instance_default_counterexample :
    validateAndUpdateJobData cLookup demoRequestC4 "u1" = .ok normalizedC4
    ∧ demoRequestC4.MetadataInstance = ""
    ∧ normalizedC4.MetadataInstance = "inst"
    ∧ ¬ ∃ p : String, "inst" = p ++ "-" ++ "u1" := by
  refine ⟨rfl, rfl, rfl, ?_⟩
  rintro ⟨p, hp⟩
  have hd : "inst".data = p.data ++ ("-".data ++ "u1".data) := by
    have h0 := congrArg String.data hp
    rw [String.data_append, String.data_append] at h0
    simpa [List.append_assoc] using h0
  have h0 := congrArg List.length hd
  rw [List.length_append] at h0
  have h2 : ("-".data ++ "u1".data).length = 3 := rfl
  rw [h2] at h0
  have h1 : "inst".data.length = 4 := rfl
  rw [h1] at h0
  have hplen : p.data.length = 1 := by omega
  obtain ⟨c, hc⟩ := List.length_eq_one.mp hplen
  rw [hc] at hd
  have hd2 : ('i' :: 'n' :: 's' :: 't' :: []) = c :: '-' :: 'u' :: '1' :: [] := hd
  injection hd2 with hh1 hh2
  injection hh2 with hh3 hh4
  exact absurd hh3 (by decide)

/-- C4 (amended): for every request the normalizer accepts, an unset job
name becomes smt-job-<run-id>, an unset change-feed name becomes
smt-rr-cs-<run-id> (then hyphen-sanitized), an unset metadata database
becomes smt-rr-metadata-<run-id>, an unset staging data directory becomes
gs://smt-rr-gcs-<run-id>/reverse-replication/data, while an unset
metadata-instance defaults to the target InstanceId (not a synthesized
<prefix>-<run-id> name); and an explicitly supplied staging data directory
without the gs:// prefix fails validation (create.go:62-84, 77-81). -/
theorem validate_synthesized_defaults :
    (∀ (lookup : String → Except String String) (request : JobData) (uuid : String) (d : JobData),
      validateAndUpdateJobData lookup request uuid = .ok d →
      request.JobName = "" → request.ChangeStreamName = "" → request.MetadataInstance = "" →
      request.MetadataDatabase = "" → request.GcsDataDirectory = "" →
      d.JobName = "smt-job-" ++ uuid
      ∧ d.ChangeStreamName = sanitizeCsName ("smt-rr-cs-" ++ uuid)
      ∧ d.MetadataInstance = request.InstanceId
      ∧ d.MetadataDatabase = "smt-rr-metadata-" ++ uuid
      ∧ d.GcsDataDirectory = "gs://smt-rr-gcs-" ++ uuid ++ "/reverse-replication/data")
    ∧ (∀ (lookup : String → Except String String) (request : JobData) (uuid : String),
      request.InstanceId ≠ "" → request.DatabaseId ≠ "" → request.SessionFilePath ≠ "" →
      request.SourceConnectionConfig ≠ "" → request.SpannerProjectId ≠ "" →
      (request.SourceType = "" ∨ request.SourceType = MYSQL) →
      request.GcsDataDirectory ≠ "" →
      goHasPrefix request.GcsDataDirectory GCS_FILE_PREFIX = false →
      validateAndUpdateJobData lookup request uuid
        = .error ("invalid gcs path for GcsDataDirectory: " ++ request.GcsDataDirectory)) := by
  constructor
  · intro lookup request uuid d h hJ hCs hMI hMD hG
    obtain ⟨-, -, hJob, hMi, hMd, hGd, hCsn⟩ := validate_ok_fields h
    rw [hJ] at hJob
    rw [hCs] at hCsn
    rw [hMI] at hMi
    rw [hMD] at hMd
    rw [hG] at hGd
    simp only [if_pos rfl] at hJob hCsn hMi hMd hGd
    exact ⟨hJob, hCsn, hMi, hMd, hGd⟩
  · intro lookup request uuid hI hD hS hC hP hST hG hGp
    unfold validateAndUpdateJobData
    rw [setBucketDefaults_eq]
    rcases hST with hst | hst <;>
      simp [checkInstanceAndDb, resolveSessionFilePath, resolveSourceConnectionConfig,
        checkSpannerProject, defaultJobName_eq, checkSourceType, defaultMetadata_eq,
        resolveGcsDataDirectory, hI, hD, hS, hC, hP, hst, hG, hGp, bindIte,
        MYSQL_ne_empty, bne_self_eq_false, exceptBind_err, exceptBind_pure]

/-- C4 witness: on a concrete valid request with all defaultable fields
unset, the synthesized names appear; and a concrete request whose staging
directory is "local/dir" fails validation with the gs:// message. -/
theorem validate_synthesized_defaults_witness :
    (normalizedW.JobName = "smt-job-" ++ "u1"
      ∧ normalizedW.ChangeStreamName = sanitizeCsName ("smt-rr-cs-" ++ "u1")
      ∧ normalizedW.MetadataInstance = demoRequestW.InstanceId
      ∧ normalizedW.MetadataDatabase = "smt-rr-metadata-" ++ "u1"
      ∧ normalizedW.GcsDataDirectory = "gs://smt-rr-gcs-" ++ "u1" ++ "/reverse-replication/data")
    ∧ validateAndUpdateJobData cLookup demoRequestBadDir "u1"
        = .error ("invalid gcs path for GcsDataDirectory: " ++ demoRequestBadDir.GcsDataDirectory) := by
  constructor
  · exact validate_synthesized_defaults.1 cLookup demoRequestW "u1" normalizedW rfl
      rfl rfl rfl rfl rfl
  · exact validate_synthesized_defaults.2 cLookup demoRequestBadDir "u1"
      (by decide) (by decide) (by decide) (by decide) (by decide) (Or.inl rfl)
      (by decide) (by decide)

theorem runActivities_stops_aux (acts : List SagaActivity) :
    ∀ (k i : Nat) (e : String) (a : SagaActivity),
      (∀ j, j < i → ∃ b, acts[j]? = some b ∧ b.txn = .ok ()) →
      acts[i]? = some a → a.txn = .error e →
      runActivities k acts = (List.range' k (i + 1), [],
        .error ("error executing activity #" ++ toString (k + i) ++ ": " ++ e)) := by
  induction acts with
  | nil =>
    intro k i e a hpre ha htxn
    simp at ha
  | cons hd tl ih =>
    intro k i e a hpre ha htxn
    cases i with
    | zero =>
      have hhd : hd = a := by simpa using ha
      subst hhd
      simp [runActivities, htxn, List.range']
    | succ i2 =>
      obtain ⟨b, hb, hbtxn⟩ := hpre 0 (Nat.succ_pos _)
      have hbhd : hd = b := by simpa using hb
      subst hbhd
      have hpre2 : ∀ j, j < i2 → ∃ b2, tl[j]? = some b2 ∧ b2.txn = .ok () := by
        intro j hj
        have := hpre (j + 1) (by omega)
        simpa using this
      have ha2 : tl[i2]? = some a := by simpa using ha
      have hrec := ih (k + 1) i2 e a hpre2 ha2 htxn
      have harith : k + 1 + i2 = k + (i2 + 1) := by omega
      rw [harith] at hrec
      simp [runActivities, hbtxn, hrec, List.range']

/-- C1: the orchestrator loop (create.go:232-242) invokes Transactions
strictly in list order; if the activity at zero-based position i fails,
positions 0..i each ran exactly once, no later position ever ran, and the
returned error names the failing position and wraps the cause.  (The
spec's scenario numbers activities from 1, so its "activity #4" is
position 3 here and appears as "#3" in the message.) -/
theorem createWorkflow_sequential_stop_on_failure :
    ∀ (acts : List SagaActivity) (i : Nat) (e : String) (a : SagaActivity),
      (∀ j, j < i → ∃ b, acts[j]? = some b ∧ b.txn = .ok ()) →
      acts[i]? = some a → a.txn = .error e →
      (runActivities 0 acts).1 = List.range (i + 1)
      ∧ (∀ j, j ≤ i → (runActivities 0 acts).1.count j = 1)
      ∧ (∀ j, i < j → (runActivities 0 acts).1.count j = 0)
      ∧ (runActivities 0 acts).2.2
          = .error ("error executing activity #" ++ toString i ++ ": " ++ e) := by
  intro acts i e a hpre ha htxn
  have h := runActivities_stops_aux acts 0 i e a hpre ha htxn
  have hr : List.range' 0 (i + 1) = List.range (i + 1) := (List.range_eq_range' _).symm
  refine ⟨?_, ?_, ?_, ?_⟩
  · rw [h]
    exact hr
  · intro j hj
    rw [h]
    simp only [hr]
    exact List.count_eq_one_of_mem (List.nodup_range _) (List.mem_range.mpr (by omega))
  · intro j hj
    rw [h]
    simp only [hr]
    refine List.count_eq_zero.mpr ?_
    intro hmem
    have := List.mem_range.mp hmem
    omega
  · rw [h]
    simp

/-- C1 witness: seven concrete activities whose fourth (position 3) fails
with cause "boom": the first four ran exactly once, the last three never,
and the error names position 3 and wraps "boom". -/
theorem createWorkflow_sequential_stop_on_failure_witness :
    (runActivities 0 demoActs7).1 = List.range 4
    ∧ (runActivities 0 demoActs7).1.count 2 = 1
    ∧ (runActivities 0 demoActs7).1.count 5 = 0
    ∧ (runActivities 0 demoActs7).2.2
        = .error ("error executing activity #" ++ toString 3 ++ ": " ++ "boom") := by
  have h := createWorkflow_sequential_stop_on_failure demoActs7 3 "boom" ⟨.error "boom", .ok ()⟩
    (by
      intro j hj
      interval_cases j <;> exact ⟨_, rfl, rfl⟩) rfl rfl
  exact ⟨h.1, h.2.1 2 (by omega), h.2.2.1 5 (by omega), h.2.2.2⟩

/-- C2 (evidence of the gap): the orchestrator loop never invokes any
Compensation — the rollback loop at create.go:234-239 is commented out —
so on the concrete two-activity input whose second Transaction fails, the
compensation trace is empty and only the transaction error is returned,
although activity 0 completed and its Compensation would have
succeeded. -/
theorem createWorkflow_no_compensation :
    (∀ (i : Nat) (acts : List SagaActivity), (runActivities i acts).2.1 = [])
    ∧ runActivities 0 demoActs2
        = ([0, 1], [], .error ("error executing activity #" ++ toString 1 ++ ": " ++ "boom")) := by
  constructor
  · intro i acts
    induction acts generalizing i with
    | nil => rfl
    | cons a rest ih =>
      rcases hX : runActivities (i + 1) rest with ⟨t, c, res⟩
      have hc : c = [] := by
        have h2 := ih (i + 1)
        rw [hX] at h2
        exact h2
      cases htxn : a.txn with
      | error e => simp [runActivities, htxn]
      | ok u => simp [runActivities, htxn, hX, hc]
  · rfl

/-- C6: PrepareChangeStream.Transaction creates the feed exactly when the
existence check reports it absent; an existing feed with wrong options is
a hard error (no creation, no repair, ExistsWithIncorrectOptions set); an
existing feed with correct options is a no-op success
(prepare_change_stream.go:42-64). -/
theorem prepareChangeStream_policy :
    ∀ env : ChangeStreamEnv,
      ((CsAction.create ∈ (prepareChangeStreamTransaction env).2.1) ↔ env.csExists = .ok false)
      ∧ (∀ e, env.csExists = .ok true → env.optionsValid = .error e →
          (prepareChangeStreamTransaction env).2.2 = .error e
          ∧ (prepareChangeStreamTransaction env).1.ExistsWithIncorrectOptions = true
          ∧ (prepareChangeStreamTransaction env).1.Created = false)
      ∧ (env.csExists = .ok true → env.optionsValid = .ok () →
          (prepareChangeStreamTransaction env).2.2 = .ok ()
          ∧ (prepareChangeStreamTransaction env).1.Exists = true
          ∧ (prepareChangeStreamTransaction env).1.Created = false) := by
  intro env
  obtain ⟨ce, ov, cr⟩ := env
  cases ce with
  | error e => cases ov <;> cases cr <;> simp [prepareChangeStreamTransaction]
  | ok b => cases b <;> cases ov <;> cases cr <;> simp [prepareChangeStreamTransaction]

/-- C6 witness: with the feed existing under wrong options, the
Transaction fails with the validation error, marks
ExistsWithIncorrectOptions, and creation happens only when the check
reports the feed absent. -/
theorem prepareChangeStream_policy_witness :
    (prepareChangeStreamTransaction demoCsEnv).2.2 = .error "wrong options"
    ∧ (prepareChangeStreamTransaction demoCsEnv).1.ExistsWithIncorrectOptions = true
    ∧ (CsAction.create ∈ (prepareChangeStreamTransaction demoCsEnv).2.1
        ↔ demoCsEnv.csExists = .ok false) := by
  have h := prepareChangeStream_policy demoCsEnv
  obtain ⟨h1, h2, -⟩ := h.2.1 "wrong options" rfl rfl
  exact ⟨h1, h2, h.1⟩

/-- C7 (evidence of the panic): with a nil additional-user-labels map — the
zero value produced by unmarshalling a tuning blob that does not set the
labels — the label write at prepare_dataflow_reader.go:136 panics
(modelled as none), so the resolver does not complete; with an allocated
(empty) map the same call completes and the run-identifying label is
present. -/
theorem readerTuningCfg_nil_label_map_panics :
    validateUpdateReaderTuningCfg {} "p1" "us-central1" "job1" "h1" = none
    ∧ validateUpdateReaderTuningCfg { AdditionalUserLabels := some [] } "p1" "us-central1" "job1" "h1"
        = some { ProjectId := "p1", JobName := "smt-reverse-replication-reader-" ++ "h1",
                 Location := "us-central1", MaxWorkers := 50, NumWorkers := 5,
                 MachineType := "n1-standard-2",
                 AdditionalUserLabels := some [("smt-reverse-replication-reader", "job1")],
                 GcsTemplatePath := REVERSE_REPLICATION_READER_TEMPLATE_PATH,
                 AdditionalExperiments := some ["use_runner_v2"],
                 EnableStreamingEngine := true } :=
  ⟨rfl, rfl⟩

/-- C8: the reader launch parameter map contains the two
custom-partitioning keys exactly when the plugin jar path is non-empty —
when it is empty the keys are omitted, not sent with empty values — while
the seventeen fixed keys are always present
(prepare_dataflow_reader.go:75-98). -/
theorem readerLaunchParams_plugin_keys :
    ∀ input : PrepareDataflowReaderInput,
      ((readerLaunchParams input).lookup "shardingCustomJarPath"
          = if input.ShardingCustomJarPath = "" then none else some input.ShardingCustomJarPath)
      ∧ ((readerLaunchParams input).lookup "shardingCustomClassName"
          = if input.ShardingCustomJarPath = "" then none else some input.ShardingCustomClassName)
      ∧ (∀ k, k ∈ readerFixedParamKeys → ((readerLaunchParams input).lookup k).isSome = true) := by
  intro input
  refine ⟨?_, ?_, ?_⟩
  · by_cases h : input.ShardingCustomJarPath = "" <;> simp [readerLaunchParams, h, List.lookup]
  · by_cases h : input.ShardingCustomJarPath = "" <;> simp [readerLaunchParams, h, List.lookup]
  · intro k hk
    simp only [readerFixedParamKeys] at hk
    fin_cases hk <;> by_cases h : input.ShardingCustomJarPath = "" <;>
      simp [readerLaunchParams, h, List.lookup]

/-- C8 witness: with an empty plugin reference the two plugin keys are
absent from the map while a fixed key ("runMode") is present. -/
theorem readerLaunchParams_plugin_keys_witness :
    ((readerLaunchParams {}).lookup "shardingCustomJarPath" = none)
    ∧ ((readerLaunchParams {}).lookup "runMode").isSome = true := by
  constructor
  · have h := (readerLaunchParams_plugin_keys {}).1
    simpa using h
  · exact (readerLaunchParams_plugin_keys {}).2.2 "runMode" (by decide)

/-- C9: change-feed name sanitization maps "a-b-c" to "a_b_c", leaves
hyphen-free names unchanged, is idempotent, and replaces exactly the
hyphens by underscores characterwise (create.go:106-107). -/
theorem sanitizeCsName_spec :
    sanitizeCsName "a-b-c" = "a_b_c"
    ∧ (∀ s : String, (∀ c ∈ s.data, c ≠ '-') → sanitizeCsName s = s)
    ∧ (∀ s : String, sanitizeCsName (sanitizeCsName s) = sanitizeCsName s)
    ∧ (∀ s : String, (sanitizeCsName s).data
        = s.data.map fun c => if c = '-' then '_' else c) := by
  refine ⟨rfl, ?_, ?_, fun s => rfl⟩
  · intro s h
    unfold sanitizeCsName
    have hmap : (s.data.map fun c => if c = '-' then '_' else c) = s.data := by
      have h1 : (s.data.map fun c => if c = '-' then '_' else c) = s.data.map id :=
        List.map_congr_left fun c hc => by simp [h c hc]
      rw [h1, List.map_id]
    rw [hmap]
  · intro s
    unfold sanitizeCsName
    have hmap : (((s.data.map fun c => if c = '-' then '_' else c).map
          fun c => if c = '-' then '_' else c))
        = s.data.map fun c => if c = '-' then '_' else c := by
      rw [List.map_map]
      refine List.map_congr_left fun c hc => ?_
      by_cases hc2 : c = '-' <;> simp [hc2, Function.comp]
    exact congrArg String.mk hmap

/-- C9 witness: a hyphen-free name is unchanged, and sanitizing twice
equals sanitizing once on "a-b-c". -/
theorem sanitizeCsName_spec_witness :
    sanitizeCsName "abc" = "abc"
    ∧ sanitizeCsName (sanitizeCsName "a-b-c") = sanitizeCsName "a-b-c" :=
  ⟨sanitizeCsName_spec.2.1 "abc" (by decide), sanitizeCsName_spec.2.2.1 "a-b-c"⟩

/-- C10: CreateWorkflow receives JobData by value (create.go:114), so the
normalizer's writes through the callee's pointer (create.go:122) land in
the callee's copy only: in the explicit-store model of the call, the
caller's record at index p is unchanged whatever the validation and
activity outcomes. -/
theorem createWorkflowByValue_frame :
    ∀ (lookup : String → Except String String) (daoInit : Except String Unit)
      (txns : JobData → List SagaActivity) (store : List JobData) (p : Nat) (uuid : String),
      p < store.length →
      ((CreateWorkflowByValue lookup daoInit txns store p uuid).1)[p]? = store[p]? := by
  intro lookup daoInit txns store p uuid hp
  unfold CreateWorkflowByValue
  cases hval : validateAndUpdateJobData lookup (store.getD p default) uuid with
  | ok r =>
    simp only [hval]
    have hne : store.length ≠ p := by omega
    rw [List.getElem?_set_ne hne]
    exact List.getElem?_append_left hp
  | error e =>
    simp only [hval]
    exact List.getElem?_append_left hp

/-- C10 witness: a one-element store; after the call the caller's record
is untouched. -/
theorem createWorkflowByValue_frame_witness :
    ((CreateWorkflowByValue cLookup (.ok ()) (fun _ => []) [demoRequestC4] 0 "u1").1)[0]?
      = [demoRequestC4][0]? :=
  createWorkflowByValue_frame cLookup (.ok ()) (fun _ => []) [demoRequestC4] 0 "u1" (by decide)

end ReverseRepl
